import Mathlib

/-!
Verification of the terminal core of the solana-playground repository.

The TypeScript source (`PgTerminal` / `PgTerm`) is shallowly embedded here:
strings are `String` / `List Char`, JavaScript string primitives
(`trim`, `split`, `indexOf`, `substring`, `replace`, `replaceAll`, regex
replacement) are modelled as executable Lean functions over `List Char`,
and a JavaScript exception (e.g. indexing `undefined`) is modelled by an
`Option`/`TryResult` value.  Event emission (custom DOM events, WASM
invocations, timers) is modelled as a list of emitted `Event` values.
-/

/-- JavaScript `\s`-style whitespace, restricted to the ASCII whitespace
characters that occur in terminal text. -/
def isJsWs (c : Char) : Bool :=
  c = ' ' || c = '\t' || c = '\n' || c = '\r' || c = '\x0b' || c = '\x0c'

/-- JavaScript `String.prototype.trim`: drop whitespace from both ends. -/
def trimL (s : List Char) : List Char :=
  ((s.dropWhile isJsWs).reverse.dropWhile isJsWs).reverse

/-- JavaScript `String.prototype.split` with a single-character separator:
`"a:b".split(":") = ["a","b"]`, `"".split(":") = [""]`. -/
def splitOnChar (sep : Char) : List Char → List (List Char)
  | [] => [[]]
  | c :: rest =>
      match splitOnChar sep rest with
      | [] => [[]]
      | cur :: others =>
          if c = sep then [] :: cur :: others else (c :: cur) :: others

/-- JavaScript `String.prototype.indexOf` for a string pattern:
index of the first occurrence, `none` for JavaScript's `-1`. -/
def indexOfL (pat : List Char) : List Char → Option Nat
  | [] => if pat = [] then some 0 else none
  | s@(_ :: rest) =>
      if pat.isPrefixOf s then some 0 else (indexOfL pat rest).map (· + 1)

/-- JavaScript `String.prototype.includes`: substring test. -/
def containsSub (pat s : List Char) : Bool :=
  (indexOfL pat s).isSome

/-- JavaScript `String.prototype.replace` with a plain-string pattern:
replace only the first occurrence (for an empty pattern, JavaScript
inserts the replacement at the front). -/
def replaceFirstL (pat rep : List Char) : List Char → List Char
  | [] => if pat = [] then rep else []
  | s@(c :: rest) =>
      if pat.isPrefixOf s then rep ++ s.drop pat.length
      else c :: replaceFirstL pat rep rest

/-- Fuel-driven worker for `replaceAllL`; the fuel is the length of the
scanned text, which bounds the number of scanning steps. -/
def replaceAllAux (pat rep : List Char) : Nat → List Char → List Char
  | 0, s => s
  | _ + 1, [] => []
  | fuel + 1, s@(c :: rest) =>
      if pat.isPrefixOf s then rep ++ replaceAllAux pat rep fuel (s.drop pat.length)
      else c :: replaceAllAux pat rep fuel rest

/-- JavaScript `String.prototype.replaceAll` with a plain-string pattern:
replace every non-overlapping occurrence, scanning left to right and
resuming after each replacement.  For an empty pattern JavaScript inserts
the replacement at every character boundary. -/
def replaceAllL (pat rep s : List Char) : List Char :=
  if pat = [] then rep ++ s.foldr (fun c acc => c :: (rep ++ acc)) []
  else replaceAllAux pat rep s.length s

/-- JavaScript string indexing `s[i]`: a character, or `undefined` (`none`)
when the index is out of range (including a negative index). -/
def charAtL (s : List Char) (i : Int) : Option Char :=
  if i < 0 then none else s.get? i.toNat

/-- JavaScript template-literal stringification of a character-or-undefined
value: `undefined` prints as the string `"undefined"`. -/
def jsCharToString : Option Char → String
  | some c => String.mk [c]
  | none => "undefined"

/-- Lowercasing used for `programErrorCode.toLowerCase()`. -/
def strToLower (s : String) : String := String.mk (s.data.map Char.toLower)

namespace PgTerminal

/-- ANSI bold from `PgTerminal.bold`. -/
def bold (text : String) : String := "\x1B[1m" ++ text ++ "\x1B[0m"

/-- ANSI green from `PgTerminal.success`. -/
def success (text : String) : String := "\x1B[1;32m" ++ text ++ "\x1B[0m"

/-- The help text `PgTerminal.HELP_TEXT`. -/
def HELP_TEXT : String :=
  "COMMANDS:\n  build                      Build your program\n  connect                    Toggle connection to Playground Wallet\n  deploy                     Deploy your program\n  solana                     Access Solana CLI commands\n"

end PgTerminal

/-- The terminal-state actions dispatched by `PgTerminal.setTerminalState`. -/
inductive TerminalAction where
  | buildStart
  | walletConnectOrSetupStart
  | deployStart
deriving DecidableEq, Repr

/-- The WASM packages requested by `PgTerminal.loadWasm`. -/
inductive WasmPkg where
  | SOLANA_CLI
deriving DecidableEq, Repr

/-- One element of the heterogeneous argument array built by
`PgTerminal.getSolanaCliArgs`. -/
inductive CliArg where
  | str (s : String)
  | bytes (b : List Nat)
deriving DecidableEq, Repr

/-- The external configuration read by the dispatcher: network endpoint
(`PgConnection.endpoint`), commitment (`PgConnection.commitment`), wallet
keypair bytes (`PgWallet.keypairBytes`), and the wallet-connectivity
precondition (`PgWallet.checkIsPgConnected()`), all external collaborators. -/
structure Env where
  endpoint : String
  commitment : String
  keypairBytes : List Nat
  connected : Bool
deriving DecidableEq, Repr

/-- The externally loaded WASM backend object; `parseSolana` records whether
the `wasm?.parseSolana` capability is present (truthy). -/
structure Wasm where
  parseSolana : Bool
deriving DecidableEq, Repr

/-- The observable effects of `PgTerminal.parseCommand`: custom events,
the WASM invocation and the scheduled re-enable. -/
inductive Event where
  | logWasm (msg : String)
  | enable
  | setTerminalState (a : TerminalAction)
  | invokeParseSolana (line : String) (args : List CliArg)
  | setTimeoutEnable (ms : Nat)
  | loadWasm (pkg : WasmPkg)
deriving DecidableEq, Repr

namespace PgTerminal

/-- `PgTerminal.getSolanaCliArgs`: endpoint, commitment and keypair bytes
pushed in order. -/
def getSolanaCliArgs (env : Env) : List CliArg :=
  [CliArg.str env.endpoint, CliArg.str env.commitment, CliArg.bytes env.keypairBytes]

/-- `PgTerminal.parseCommand(cmd, wasm?)`: trims the line, recognizes the
built-in commands by exact equality, recognizes the Solana CLI passthrough
by exact equality of the first space-split token, and returns whether the
command matched together with the list of emitted effects. -/
def parseCommand (env : Env) (cmd : String) (wasm : Option Wasm) : Bool × List Event :=
  let t := trimL cmd.data
  if t = "help".data then
    (true, [Event.logWasm HELP_TEXT, Event.enable])
  else if t = "build".data then
    (true, [Event.setTerminalState TerminalAction.buildStart])
  else if t = "connect".data then
    (true, [Event.setTerminalState TerminalAction.walletConnectOrSetupStart])
  else if t = "deploy".data then
    (true, if env.connected then [Event.setTerminalState TerminalAction.deployStart] else [])
  else if (splitOnChar ' ' t).head? = some ("solana".data) then
    match wasm with
    | some w =>
        if w.parseSolana then
          if env.connected then
            (true, [Event.invokeParseSolana (String.mk t) (getSolanaCliArgs env),
                    Event.setTimeoutEnable 1000])
          else (true, [])
        else (true, [Event.loadWasm WasmPkg.SOLANA_CLI])
    | none => (true, [Event.loadWasm WasmPkg.SOLANA_CLI])
  else
    (false, [])

end PgTerminal

/-- The first whitespace-delimited token of a line, following the words of
the specification ("first whitespace-delimited token"): the maximal prefix of
the trimmed line containing no whitespace character.  Used only to compare
the specification's wording with the source, which splits on `' '` alone. -/
def firstWhitespaceToken (s : String) : String :=
  String.mk ((trimL s.data).takeWhile (fun c => !isJsWs c))

/-- C1 (counterexample): the claim as stated is false.  The source splits on
the space character only (`cmd.split(" ")`), so a line whose first
whitespace-delimited token is exactly `"solana"` but whose delimiter is a tab
is not matched: `parseCommand "solana\tbalance"` returns not-matched even
though `firstWhitespaceToken "solana\tbalance" = "solana"`. -/
theorem c1_counterexample :
    (PgTerminal.parseCommand ⟨"ep", "confirmed", [], true⟩ "solana\tbalance" none).1 = false ∧
    firstWhitespaceToken "solana\tbalance" = "solana" := by
  decide

/-- C1 (amended): for every input string, `parseCommand` returns matched
(`true`) if and only if the trimmed line is exactly `"help"`, `"build"`,
`"connect"` or `"deploy"`, or its first space-delimited token (the first
element of splitting the trimmed line on the space character, as the source
does) is exactly `"solana"`; in particular a line whose first token merely
starts with a reserved word is not matched. -/
theorem c1_amended (env : Env) (cmd : String) (wasm : Option Wasm) :
    (PgTerminal.parseCommand env cmd wasm).1 = true ↔
      (trimL cmd.data = "help".data ∨ trimL cmd.data = "build".data ∨
       trimL cmd.data = "connect".data ∨ trimL cmd.data = "deploy".data ∨
       (splitOnChar ' ' (trimL cmd.data)).head? = some ("solana".data)) := by
  cases wasm with
  | none =>
      simp only [PgTerminal.parseCommand]
      split_ifs <;> simp_all
  | some w =>
      simp only [PgTerminal.parseCommand]
      split_ifs <;> simp_all

/-- C1 (witness): the amended claim evaluated at the concrete inputs of the
specification's test: `"help"` is matched, `"unknown-xyz"` is not, and
`"solana-keygen balance"` is not. -/
theorem c1_witness :
    ((PgTerminal.parseCommand ⟨"ep", "c", [], true⟩ "help" none).1 = true ↔
      (trimL ("help" : String).data = "help".data ∨ trimL ("help" : String).data = "build".data ∨
       trimL ("help" : String).data = "connect".data ∨ trimL ("help" : String).data = "deploy".data ∨
       (splitOnChar ' ' (trimL ("help" : String).data)).head? = some ("solana".data))) ∧
    ((PgTerminal.parseCommand ⟨"ep", "c", [], true⟩ "unknown-xyz" none).1 = true ↔
      (trimL ("unknown-xyz" : String).data = "help".data ∨
       trimL ("unknown-xyz" : String).data = "build".data ∨
       trimL ("unknown-xyz" : String).data = "connect".data ∨
       trimL ("unknown-xyz" : String).data = "deploy".data ∨
       (splitOnChar ' ' (trimL ("unknown-xyz" : String).data)).head? = some ("solana".data))) :=
  ⟨c1_amended ⟨"ep", "c", [], true⟩ "help" none,
   c1_amended ⟨"ep", "c", [], true⟩ "unknown-xyz" none⟩

/-- C3 (confirmed): for every connectivity state (and every backend state),
`parseCommand "deploy"` returns matched, and the "start deploy" state
signal is emitted if and only if the wallet-connectivity precondition
(`PgWallet.checkIsPgConnected()`) holds. -/
theorem c3_deploy_gated (env : Env) (wasm : Option Wasm) :
    (PgTerminal.parseCommand env "deploy" wasm).1 = true ∧
    (Event.setTerminalState TerminalAction.deployStart ∈
        (PgTerminal.parseCommand env "deploy" wasm).2 ↔ env.connected = true) := by
  have h : PgTerminal.parseCommand env "deploy" wasm =
      (true, if env.connected then [Event.setTerminalState TerminalAction.deployStart] else []) := rfl
  rw [h]
  cases hc : env.connected <;> simp

/-- C3 (witness): both connectivity branches evaluated concretely. -/
theorem c3_witness :
    ((PgTerminal.parseCommand ⟨"e", "c", [], true⟩ "deploy" none).1 = true ∧
     (Event.setTerminalState TerminalAction.deployStart ∈
        (PgTerminal.parseCommand ⟨"e", "c", [], true⟩ "deploy" none).2 ↔
          (⟨"e", "c", [], true⟩ : Env).connected = true)) ∧
    ((PgTerminal.parseCommand ⟨"e", "c", [], false⟩ "deploy" none).1 = true ∧
     (Event.setTerminalState TerminalAction.deployStart ∈
        (PgTerminal.parseCommand ⟨"e", "c", [], false⟩ "deploy" none).2 ↔
          (⟨"e", "c", [], false⟩ : Env).connected = true)) :=
  ⟨c3_deploy_gated ⟨"e", "c", [], true⟩ none, c3_deploy_gated ⟨"e", "c", [], false⟩ none⟩

/-- C4 (counterexample): the claim as stated is false.  With the backend
loaded (`wasm.parseSolana` present) but the wallet-connectivity precondition
false, the source emits nothing at all — in particular it does not invoke
the backend — even though the claim says a loaded backend is always invoked
for a `solana` line. -/
theorem c4_counterexample :
    (PgTerminal.parseCommand ⟨"ep", "confirmed", [7], false⟩ "solana balance"
        (some ⟨true⟩)).2 = [] ∧
    (PgTerminal.parseCommand ⟨"ep", "confirmed", [7], false⟩ "solana balance"
        (some ⟨true⟩)).1 = true := by
  decide

/-- C4 (amended): for every line whose first space-delimited token is
`"solana"`: if the backend is loaded and the wallet-connectivity
precondition holds, `parseCommand` invokes the backend with the trimmed
line plus the fixed contextual arguments (network endpoint, commitment
level, wallet keypair bytes) and schedules a re-enable after a fixed
1000 ms delay; if the backend is loaded but the precondition fails, it
emits nothing; if the backend is not loaded, it emits a load-backend
request and does not invoke it.  In every case it returns matched. -/
theorem c4_amended (env : Env) (cmd : String) (w : Wasm)
    (htok : (splitOnChar ' ' (trimL cmd.data)).head? = some ("solana".data)) :
    (PgTerminal.parseCommand env cmd (some w)).1 = true ∧
    (w.parseSolana = true → env.connected = true →
      (PgTerminal.parseCommand env cmd (some w)).2 =
        [Event.invokeParseSolana (String.mk (trimL cmd.data)) (PgTerminal.getSolanaCliArgs env),
         Event.setTimeoutEnable 1000]) ∧
    (w.parseSolana = true → env.connected = false →
      (PgTerminal.parseCommand env cmd (some w)).2 = []) ∧
    (w.parseSolana = false →
      (PgTerminal.parseCommand env cmd (some w)).2 = [Event.loadWasm WasmPkg.SOLANA_CLI]) ∧
    (PgTerminal.parseCommand env cmd none).1 = true ∧
    (PgTerminal.parseCommand env cmd none).2 = [Event.loadWasm WasmPkg.SOLANA_CLI] := by
  have h1 : trimL cmd.data ≠ "help".data := by
    intro h; rw [h] at htok; exact absurd htok (by decide)
  have h2 : trimL cmd.data ≠ "build".data := by
    intro h; rw [h] at htok; exact absurd htok (by decide)
  have h3 : trimL cmd.data ≠ "connect".data := by
    intro h; rw [h] at htok; exact absurd htok (by decide)
  have h4 : trimL cmd.data ≠ "deploy".data := by
    intro h; rw [h] at htok; exact absurd htok (by decide)
  simp only [PgTerminal.parseCommand, h1, h2, h3, h4, htok, if_false, if_true,
    reduceIte]
  refine ⟨?_, ?_, ?_, ?_, ?_, ?_⟩
  · cases hp : w.parseSolana <;> cases hc : env.connected <;> simp [hp, hc]
  · intro hp hc; simp [hp, hc]
  · intro hp hc; simp [hp, hc]
  · intro hp; simp [hp]
  · simp
  · simp

/-- C4 (witness): the amended claim at the concrete line `"solana balance"`
with a loaded backend, showing the hypothesis is satisfiable. -/
theorem c4_witness :
    ((splitOnChar ' ' (trimL ("solana balance" : String).data)).head? =
        some ("solana".data)) ∧
    ((PgTerminal.parseCommand ⟨"ep", "max", [9], true⟩ "solana balance" (some ⟨true⟩)).1 = true ∧
     ((⟨true⟩ : Wasm).parseSolana = true → (⟨"ep", "max", [9], true⟩ : Env).connected = true →
       (PgTerminal.parseCommand ⟨"ep", "max", [9], true⟩ "solana balance" (some ⟨true⟩)).2 =
         [Event.invokeParseSolana (String.mk (trimL ("solana balance" : String).data))
            (PgTerminal.getSolanaCliArgs ⟨"ep", "max", [9], true⟩),
          Event.setTimeoutEnable 1000]) ∧
     ((⟨true⟩ : Wasm).parseSolana = true → (⟨"ep", "max", [9], true⟩ : Env).connected = false →
       (PgTerminal.parseCommand ⟨"ep", "max", [9], true⟩ "solana balance" (some ⟨true⟩)).2 = []) ∧
     ((⟨true⟩ : Wasm).parseSolana = false →
       (PgTerminal.parseCommand ⟨"ep", "max", [9], true⟩ "solana balance" (some ⟨true⟩)).2 =
         [Event.loadWasm WasmPkg.SOLANA_CLI]) ∧
     (PgTerminal.parseCommand ⟨"ep", "max", [9], true⟩ "solana balance" none).1 = true ∧
     (PgTerminal.parseCommand ⟨"ep", "max", [9], true⟩ "solana balance" none).2 =
       [Event.loadWasm WasmPkg.SOLANA_CLI]) :=
  ⟨by decide, c4_amended ⟨"ep", "max", [9], true⟩ "solana balance" ⟨true⟩ (by decide)⟩

/-- Modelled from the spec: the known hex program-error code table
(`PROGRAM_ERROR`, imported by the source from a constants module that is not
among the provided sources).  Per the spec it maps hex program-error-code
strings to human-readable reason texts; representative entries. -/
def PROGRAM_ERROR : List (String × String) :=
  [("0", "Either an account has already been initialized or an instruction tried to use an uninitialized account"),
   ("1", "The program could not process the instruction because of insufficient funds")]

/-- Modelled from the spec: the known RPC-error substring table
(`RPC_ERROR`, imported from the missing constants module).  Maps known
RPC-error substrings to friendly messages; representative entries. -/
def RPC_ERROR : List (String × String) :=
  [("503 Service Unavailable", "RPC endpoint is not responsive."),
   ("429 Too Many Requests", "Too many requests for this endpoint.")]

/-- Modelled from the spec: the known server-error table (`SERVER_ERROR`,
imported from the missing constants module).  Matched by exact equality. -/
def SERVER_ERROR : List (String × String) :=
  [("Unknown", "Something went wrong on the server side.")]

/-- Modelled from the spec: the known generic-error table (`OTHER_ERROR`,
imported from the missing constants module).  Matched by exact equality. -/
def OTHER_ERROR : List (String × String) :=
  [("Topology was destroyed", "Build server is temporarily unavailable.")]

/-- Modelled from the spec: `PgCommon.isInt` (the `PgCommon` module is not
among the provided sources); per the spec it tests whether the extracted
character is parseable as an integer, and a missing character
(JavaScript `undefined`) is not. -/
def isIntOpt : Option Char → Bool
  | some c => c.isDigit
  | none => false

/-- Outcome of one stage of `convertErrorMessage`: fall through to the next
table (`pass`), throw a JavaScript exception (`thrown`), or return. -/
inductive TryResult where
  | pass
  | thrown
  | ret (s : String)
deriving DecidableEq, Repr

/-- The instruction-index extraction of the hex program-error branch: the
last character of the third colon-delimited segment, falling back to `"0"`
when that character is missing or not parseable as an integer. -/
def ixFromSegment (p2 : List Char) : String :=
  let c := charAtL p2 ((p2.length : Int) - 1)
  if isIntOpt c then jsCharToString c else "0"

namespace PgTerminal

/-- The hex program-error loop of `convertErrorMessage`: for each code in
the table, if the message ends with `"0x" + code.toLowerCase()`, read the
instruction index out of `parts[2]` (throwing, as the source does, when
`split(":")` produced no third segment) and return the friendly message. -/
def hexProgramErrors (msg : String) : List (String × String) → TryResult
  | [] => .pass
  | (code, reason) :: rest =>
      if ("0x" ++ strToLower code).data.isSuffixOf msg.data then
        match (splitOnChar ':' msg.data).get? 2 with
        | none => .thrown
        | some p2 =>
            .ret ("\n" ++ bold "Instruction index:" ++ " " ++ ixFromSegment p2 ++
                  "\n" ++ bold "Reason:" ++ " " ++ reason)
      else hexProgramErrors msg rest

/-- The `"failed to send"` branch of `convertErrorMessage`, with the
four-segment (instruction-index) variant and the indexless variant; the
source throws when the capitalized segment has no second character or when
the needed segment is absent. -/
def failedToSendBranch (msg : String) : TryResult :=
  let parts := splitOnChar ':' msg.data
  if parts.length = 4 then
    match parts.get? 2, parts.get? 3 with
    | some p2, some p3 =>
        let ixStr := jsCharToString (charAtL p2 ((p2.length : Int) - 1))
        match charAtL p3 1 with
        | none => .thrown
        | some c1 =>
            .ret ("\n" ++ bold "Instruction index:" ++ " " ++ ixStr ++ "\n" ++
                  bold "Reason:" ++ " " ++
                  (String.mk [c1.toUpper] ++ String.mk (p3.drop 2)) ++ ".")
    | _, _ => .thrown
  else
    match parts.get? 2 with
    | none => .thrown
    | some p2 =>
        match charAtL p2 1 with
        | none => .thrown
        | some c1 =>
            .ret ("\n" ++ bold "Reason:" ++ " " ++
                  (String.mk [c1.toUpper] ++ String.mk (p2.drop 2)) ++ ".")

/-- The RPC-error loop of `convertErrorMessage`: first table key occurring
as a substring of the message wins. -/
def rpcErrors (msg : String) : List (String × String) → Option String
  | [] => none
  | (k, v) :: rest => if containsSub k.data msg.data then some v else rpcErrors msg rest

/-- The server-error and generic-error loops of `convertErrorMessage`:
exact-equality match against the table keys. -/
def exactErrors (msg : String) : List (String × String) → Option String
  | [] => none
  | (k, v) :: rest => if msg = k then some v else exactErrors msg rest

/-- `PgTerminal.convertErrorMessage(msg)`: ordered first-match over the hex
program-error table, the `"failed to send"` descriptive form, the RPC-error
substring table and the exact server/generic tables, returning the message
unchanged when nothing matches.  `none` models a thrown JavaScript
exception (indexing into `undefined`). -/
def convertErrorMessage (msg : String) : Option String :=
  match hexProgramErrors msg PROGRAM_ERROR with
  | .thrown => none
  | .ret s => some s
  | .pass =>
      if "failed to send".data.isPrefixOf msg.data then
        match failedToSendBranch msg with
        | .thrown => none
        | .ret s => some s
        | .pass => some msg
      else
        match rpcErrors msg RPC_ERROR with
        | some s => some s
        | none =>
            match exactErrors msg SERVER_ERROR with
            | some s => some s
            | none =>
                match exactErrors msg OTHER_ERROR with
                | some s => some s
                | none => some msg

end PgTerminal

/-- Two suffixes of the same list with equal lengths are equal. -/
theorem suffix_eq_of_length {m a b : List Char} (ha : a <:+ m) (hb : b <:+ m)
    (h : a.length = b.length) : a = b := by
  obtain ⟨t, rfl⟩ := ha
  obtain ⟨u, hu⟩ := hb
  have hlen : u.length = t.length := by
    have hl := congrArg List.length hu
    simp only [List.length_append] at hl
    omega
  exact ((List.append_inj hu hlen).2).symm


/-- `containsSub` decides list-infix containment. -/
theorem containsSub_infix_iff (pat s : List Char) :
    containsSub pat s = true ↔ pat <:+: s := by
  induction s with
  | nil =>
      constructor
      · intro h
        by_cases hp : pat = []
        · simp [hp]
        · simp [containsSub, indexOfL, hp] at h
      · intro h
        have := List.infix_nil.mp h
        simp [this, containsSub, indexOfL]
  | cons c rest ih =>
      rw [containsSub, indexOfL, List.infix_cons_iff]
      by_cases hpre : pat.isPrefixOf (c :: rest) = true
      · simp [hpre, List.isPrefixOf_iff_prefix.mp hpre]
      · have hnp : ¬ pat <+: c :: rest := fun hc =>
          hpre (List.isPrefixOf_iff_prefix.mpr hc)
        rw [containsSub] at ih
        simp [hpre, hnp]
        cases hio : indexOfL pat rest with
        | none => rw [hio] at ih; simpa using ih.symm
        | some n => rw [hio] at ih; simpa using ih.symm

/-- Substring containment survives extending the text on the right. -/
theorem containsSub_append_right (pat a b : List Char)
    (h : containsSub pat a = true) : containsSub pat (a ++ b) = true := by
  rw [containsSub_infix_iff] at h ⊢
  obtain ⟨x, y, hxy⟩ := h
  exact ⟨x, y ++ b, by rw [← hxy]; simp⟩

/-- Substring containment survives extending the text on the left. -/
theorem containsSub_append_left (pat a b : List Char)
    (h : containsSub pat b = true) : containsSub pat (a ++ b) = true := by
  rw [containsSub_infix_iff] at h ⊢
  obtain ⟨x, y, hxy⟩ := h
  exact ⟨a ++ x, y, by rw [← hxy]; simp⟩

/-- Every list contains itself as a substring. -/
theorem containsSub_refl (pat : List Char) : containsSub pat pat = true := by
  rw [containsSub_infix_iff]

/-- If no code of the table matches as a suffix, the hex program-error loop
falls through. -/
theorem hexProgramErrors_pass (msg : String) (tbl : List (String × String))
    (h : ∀ p ∈ tbl, ("0x" ++ strToLower p.1).data.isSuffixOf msg.data = false) :
    PgTerminal.hexProgramErrors msg tbl = TryResult.pass := by
  induction tbl with
  | nil => rfl
  | cons e rest ih =>
      obtain ⟨code, reason⟩ := e
      rw [PgTerminal.hexProgramErrors]
      rw [h (code, reason) (by simp)]
      simp only [Bool.false_eq_true, if_false]
      exact ih (fun p hp => h p (by simp [hp]))

/-- If no key of the table occurs as a substring, the RPC-error loop
returns nothing. -/
theorem rpcErrors_none (msg : String) (tbl : List (String × String))
    (h : ∀ p ∈ tbl, containsSub p.1.data msg.data = false) :
    PgTerminal.rpcErrors msg tbl = none := by
  induction tbl with
  | nil => rfl
  | cons e rest ih =>
      obtain ⟨k, v⟩ := e
      rw [PgTerminal.rpcErrors]
      rw [h (k, v) (by simp)]
      simp only [Bool.false_eq_true, if_false]
      exact ih (fun p hp => h p (by simp [hp]))

/-- If the message equals no key of the table, the exact-match loop
returns nothing. -/
theorem exactErrors_none (msg : String) (tbl : List (String × String))
    (h : ∀ p ∈ tbl, msg ≠ p.1) :
    PgTerminal.exactErrors msg tbl = none := by
  induction tbl with
  | nil => rfl
  | cons e rest ih =>
      obtain ⟨k, v⟩ := e
      rw [PgTerminal.exactErrors]
      rw [if_neg (h (k, v) (by simp))]
      exact ih (fun p hp => h p (by simp [hp]))

/-- C5 (counterexample): the claim as stated is false.  The message `"0x0"`
ends in a known hex program-error-code suffix, but `convertErrorMessage`
does not return a message containing "Instruction index:" — it throws
(modelled as `none`), because `split(":")` produced no third segment and the
source indexes into `undefined` instead of falling back. -/
theorem c5_counterexample :
    ("0x" ++ strToLower ("0", "").1).data.isSuffixOf ("0x0" : String).data = true ∧
    PgTerminal.convertErrorMessage "0x0" = none := by
  decide

/-- C5 (amended): for every message ending in a known hex
program-error-code suffix whose colon-split has at least three segments,
`convertErrorMessage` returns a message containing both "Instruction
index:" and the reason text mapped from the program-error code table; the
instruction index is the last character of the third colon-delimited
segment, falling back to `"0"` when that character is missing or not
parseable as an integer (`ixFromSegment`).  When the colon-split has fewer
than three segments the source throws instead (see the counterexample). -/
theorem c5_amended (msg : String) (p : String × String) (p2 : List Char)
    (hp : p ∈ PROGRAM_ERROR)
    (hsuf : ("0x" ++ strToLower p.1).data.isSuffixOf msg.data = true)
    (hseg : (splitOnChar ':' msg.data).get? 2 = some p2) :
    ∃ r, PgTerminal.convertErrorMessage msg = some r ∧
      r = "\n" ++ PgTerminal.bold "Instruction index:" ++ " " ++ ixFromSegment p2 ++
          "\n" ++ PgTerminal.bold "Reason:" ++ " " ++ p.2 ∧
      containsSub ("Instruction index:".data) r.data = true ∧
      containsSub (p.2.data) r.data = true := by
  have hcases : p = ("0", "Either an account has already been initialized or an instruction tried to use an uninitialized account") ∨
      p = ("1", "The program could not process the instruction because of insufficient funds") := by
    simpa [PROGRAM_ERROR] using hp
  have hhex : PgTerminal.hexProgramErrors msg PROGRAM_ERROR =
      TryResult.ret ("\n" ++ PgTerminal.bold "Instruction index:" ++ " " ++ ixFromSegment p2 ++
        "\n" ++ PgTerminal.bold "Reason:" ++ " " ++ p.2) := by
    rcases hcases with hc | hc
    · subst hc
      rw [PROGRAM_ERROR, PgTerminal.hexProgramErrors]
      simp only at hsuf
      rw [hsuf, if_pos rfl, hseg]
    · subst hc
      simp only at hsuf
      have hno : ("0x" ++ strToLower "0").data.isSuffixOf msg.data = false := by
        cases hb : ("0x" ++ strToLower "0").data.isSuffixOf msg.data with
        | false => rfl
        | true =>
            have h0 : ("0x" ++ strToLower "0").data <:+ msg.data :=
              List.isSuffixOf_iff_suffix.mp hb
            have h1 : ("0x" ++ strToLower "1").data <:+ msg.data :=
              List.isSuffixOf_iff_suffix.mp hsuf
            have := suffix_eq_of_length h0 h1 (by decide)
            exact absurd this (by decide)
      rw [PROGRAM_ERROR, PgTerminal.hexProgramErrors]
      rw [hno]
      simp only [Bool.false_eq_true, if_false]
      rw [PgTerminal.hexProgramErrors]
      rw [hsuf, if_pos rfl, hseg]
  refine ⟨_, ?_, rfl, ?_, ?_⟩
  · rw [PgTerminal.convertErrorMessage, hhex]
  · have hd : ("\n" ++ PgTerminal.bold "Instruction index:" ++ " " ++ ixFromSegment p2 ++
        "\n" ++ PgTerminal.bold "Reason:" ++ " " ++ p.2).data =
        ("\n" ++ PgTerminal.bold "Instruction index:").data ++
        ((" " ++ ixFromSegment p2 ++ "\n" ++ PgTerminal.bold "Reason:" ++ " " ++ p.2).data) := by
      simp [String.data_append, List.append_assoc]
    rw [hd]
    exact containsSub_append_right _ _ _ (by decide)
  · have hd : ("\n" ++ PgTerminal.bold "Instruction index:" ++ " " ++ ixFromSegment p2 ++
        "\n" ++ PgTerminal.bold "Reason:" ++ " " ++ p.2).data =
        ("\n" ++ PgTerminal.bold "Instruction index:" ++ " " ++ ixFromSegment p2 ++
          "\n" ++ PgTerminal.bold "Reason:" ++ " ").data ++ p.2.data := by
      simp [String.data_append, List.append_assoc]
    rw [hd]
    exact containsSub_append_left _ _ _ (containsSub_refl _)

/-- C2 (code bug): contrary to the specification's "never thrown" guarantee,
`convertErrorMessage` throws on a message that ends in a known hex
program-error-code suffix but whose colon-split has fewer than three
segments: the source reads `parts[2][parts[2].length - 1]` where
`parts[2]` is `undefined`, a TypeError.  `none` models the throw. -/
theorem c2_code_bug :
    PgTerminal.convertErrorMessage "custom program error 0x1" = none := by
  decide

/-- C5 (witness): the amended claim at a concrete realistic message whose
third colon-delimited segment ends in a non-digit, exercising the
fall-back to instruction index `"0"`. -/
theorem c5_witness :
    (("1", "The program could not process the instruction because of insufficient funds") ∈ PROGRAM_ERROR) ∧
    (("0x" ++ strToLower ("1", "The program could not process the instruction because of insufficient funds").1).data.isSuffixOf
      ("Transaction simulation failed: Error processing Instruction 2: custom program error: 0x1" : String).data = true) ∧
    ((splitOnChar ':' ("Transaction simulation failed: Error processing Instruction 2: custom program error: 0x1" : String).data).get? 2 =
      some (" custom program error" : String).data) ∧
    (∃ r, PgTerminal.convertErrorMessage
        "Transaction simulation failed: Error processing Instruction 2: custom program error: 0x1" = some r ∧
      r = "\n" ++ PgTerminal.bold "Instruction index:" ++ " " ++
          ixFromSegment (" custom program error" : String).data ++
          "\n" ++ PgTerminal.bold "Reason:" ++ " " ++
          ("1", "The program could not process the instruction because of insufficient funds").2 ∧
      containsSub ("Instruction index:".data) r.data = true ∧
      containsSub (("1", "The program could not process the instruction because of insufficient funds").2.data) r.data = true) :=
  ⟨by decide, by decide, by decide,
   c5_amended "Transaction simulation failed: Error processing Instruction 2: custom program error: 0x1"
     ("1", "The program could not process the instruction because of insufficient funds")
     (" custom program error" : String).data (by decide) (by decide) (by decide)⟩

/-- C6 (confirmed): a message matching none of the error tables — not
ending in a known hex program-error-code suffix, not starting with
"failed to send", containing no known RPC-error substring, and equal to no
key of the server-error or generic-error tables — is returned unchanged. -/
theorem c6_unmatched (msg : String)
    (hhex : ∀ p ∈ PROGRAM_ERROR, ("0x" ++ strToLower p.1).data.isSuffixOf msg.data = false)
    (hfts : "failed to send".data.isPrefixOf msg.data = false)
    (hrpc : ∀ p ∈ RPC_ERROR, containsSub p.1.data msg.data = false)
    (hsrv : ∀ p ∈ SERVER_ERROR, msg ≠ p.1)
    (hoth : ∀ p ∈ OTHER_ERROR, msg ≠ p.1) :
    PgTerminal.convertErrorMessage msg = some msg := by
  rw [PgTerminal.convertErrorMessage, hexProgramErrors_pass msg _ hhex]
  rw [hfts]
  simp only [Bool.false_eq_true, if_false]
  rw [rpcErrors_none msg _ hrpc, exactErrors_none msg _ hsrv, exactErrors_none msg _ hoth]

/-- C6 (witness): the unmatched message of the specification's test,
`"unknown-xyz"`, comes back verbatim. -/
theorem c6_witness :
    (∀ p ∈ PROGRAM_ERROR,
      ("0x" ++ strToLower p.1).data.isSuffixOf ("unknown-xyz" : String).data = false) ∧
    ("failed to send".data.isPrefixOf ("unknown-xyz" : String).data = false) ∧
    (∀ p ∈ RPC_ERROR, containsSub p.1.data ("unknown-xyz" : String).data = false) ∧
    (∀ p ∈ SERVER_ERROR, ("unknown-xyz" : String) ≠ p.1) ∧
    (∀ p ∈ OTHER_ERROR, ("unknown-xyz" : String) ≠ p.1) ∧
    PgTerminal.convertErrorMessage "unknown-xyz" = some "unknown-xyz" :=
  ⟨by decide, by decide, by decide, by decide, by decide,
   c6_unmatched "unknown-xyz" (by decide) (by decide) (by decide) (by decide) (by decide)⟩

/-- The lazy `.+?(?=\s)` part of the home-path regex
`/\s\(\/home.+?(?=\s)/`: consume at least one character (never a line
terminator, which `.` does not match) until the next character is
whitespace; the lookahead character is not consumed.  Returns the remainder
after the match, or `none` when no match completes. -/
def lazyConsume : List Char → Option (List Char)
  | [] => none
  | c :: rest =>
      if c = '\n' || c = '\r' then none
      else
        match rest with
        | [] => none
        | d :: _ => if isJsWs d then some rest else lazyConsume rest

/-- Attempt to match the regex `/\s\(\/home.+?(?=\s)/` at the head of the
list; on success return the remainder after the matched text. -/
def homeMatchAt : List Char → Option (List Char)
  | [] => none
  | c :: rest =>
      if isJsWs c && "(/home".data.isPrefixOf rest then lazyConsume (rest.drop 6)
      else none

/-- Fuel-driven scanner for the global regex replacement
`stderr.replace(/\s\(\/home.+?(?=\s)/g, "")`: at each position try the
match; on success drop the matched text and resume after it. -/
def removeHomeAux : Nat → List Char → List Char
  | 0, s => s
  | _ + 1, [] => []
  | fuel + 1, s@(c :: rest) =>
      match homeMatchAt s with
      | some rem => removeHomeAux fuel rem
      | none => c :: removeHomeAux fuel rest

/-- `stderr.replace(/\s\(\/home.+?(?=\s)/g, "")`: remove every
home-directory path fragment. -/
def removeHomePaths (s : List Char) : List Char :=
  removeHomeAux s.length s

/-- JavaScript `String.prototype.indexOf(pat, start)` (with `start ≥ 0`). -/
def indexOfFromL (pat s : List Char) (start : Nat) : Option Nat :=
  (indexOfL pat (s.drop start)).map (· + start)

namespace PgTerminal

/-- The rustc-error-line removal of `editStderr`: find `"For more"`, cut
from there to just past the next newline (when no newline follows,
JavaScript's `indexOf` returns `-1` and `substring(-1 + 1)` is the whole
string again, faithfully reproduced). -/
def forMoreStage (s : List Char) : List Char :=
  match indexOfL "For more".data s with
  | none => s
  | some i =>
      match indexOfFromL ['\n'] s i with
      | some e => s.take i ++ s.drop (e + 1)
      | none => s.take i ++ s

/-- The `"Finished release"` success-banner rewrite of `editStderr`:
collapse up to 7 characters of preceding whitespace, splice in the
success banner and `"Completed"`, and keep the elapsed-time tail starting
at `" in"`, turning its first newline into `".\n"`.  JavaScript
`substring` clamps negative indices to `0`. -/
def finishedStage (s : List Char) : List Char :=
  match indexOfL "Finished release".data s with
  | none => s
  | some startIndex =>
      let wStart : Nat := if 7 ≤ startIndex then startIndex - 7 else 0
      let tailStart : Nat :=
        match indexOfFromL " in".data s startIndex with
        | some j => j
        | none => 0
      s.take wStart ++
      replaceAllL [' '] [] ((s.drop wStart).take (startIndex - wStart)) ++
      (success "Build successful. ").data ++
      "Completed".data ++
      replaceFirstL ['\n'] ['.', '\n'] (s.drop tailStart)

/-- `PgTerminal.editStderr(stderr, uuid)`: strip home-directory path
fragments, remove every occurrence of the session uuid, drop the rustc
`"For more"` trailer line, remove the first `"Compiling solpg v0.1.0\n"`
banner line, and rewrite the `"Finished release"` marker into a success
banner, in the source's order. -/
def editStderr (stderr uuid : String) : String :=
  String.mk
    (finishedStage
      (replaceFirstL ("Compiling solpg v0.1.0\n".data) []
        (forMoreStage
          (replaceAllL uuid.data []
            (removeHomePaths stderr.data)))))

end PgTerminal

/-- A text that does not contain the pattern is not prefixed by it. -/
theorem contains_false_not_prefix {pat s : List Char}
    (h : containsSub pat s = false) : pat.isPrefixOf s = false := by
  cases s with
  | nil =>
      cases pat with
      | nil => simp [containsSub, indexOfL] at h
      | cons p ps => rfl
  | cons c rest =>
      rw [containsSub, indexOfL] at h
      cases hp : pat.isPrefixOf (c :: rest) with
      | false => rfl
      | true => rw [hp] at h; simp at h

/-- Containment fails for the tail when it fails for the whole. -/
theorem contains_false_tail {pat : List Char} {c : Char} {rest : List Char}
    (h : containsSub pat (c :: rest) = false) : containsSub pat rest = false := by
  rw [containsSub, indexOfL] at h
  rw [containsSub]
  cases hio : indexOfL pat rest with
  | none => simp
  | some n =>
      rw [hio] at h
      split at h <;> simp at h

/-- No-containment makes `indexOfL` return nothing. -/
theorem indexOf_none_of_not_contains {pat s : List Char}
    (h : containsSub pat s = false) : indexOfL pat s = none := by
  rw [containsSub] at h
  exact Option.not_isSome_iff_eq_none.mp (by simp [h])

/-- The home-path regex cannot match at the head of a text that does not
contain `"(/home"`. -/
theorem homeMatchAt_none {s : List Char}
    (h : containsSub "(/home".data s = false) : homeMatchAt s = none := by
  cases s with
  | nil => rfl
  | cons c rest =>
      have hp := contains_false_not_prefix (contains_false_tail h)
      rw [homeMatchAt, hp]
      simp

/-- The home-path scanner is the identity on texts without `"(/home"`. -/
theorem removeHomeAux_id (s : List Char) :
    ∀ fuel, containsSub "(/home".data s = false → removeHomeAux fuel s = s := by
  induction s with
  | nil => intro fuel _; cases fuel <;> rfl
  | cons c rest ih =>
      intro fuel h
      cases fuel with
      | zero => rfl
      | succ f =>
          rw [removeHomeAux, homeMatchAt_none h]
          rw [ih f (contains_false_tail h)]

/-- `removeHomePaths` is the identity on texts without `"(/home"`. -/
theorem removeHomePaths_id {s : List Char}
    (h : containsSub "(/home".data s = false) : removeHomePaths s = s :=
  removeHomeAux_id s s.length h

/-- The `replaceAll` worker is the identity on texts without the pattern. -/
theorem replaceAllAux_id (pat rep : List Char) (s : List Char) :
    ∀ fuel, containsSub pat s = false → replaceAllAux pat rep fuel s = s := by
  induction s with
  | nil => intro fuel _; cases fuel <;> rfl
  | cons c rest ih =>
      intro fuel h
      cases fuel with
      | zero => rfl
      | succ f =>
          rw [replaceAllAux, contains_false_not_prefix h]
          simp only [Bool.false_eq_true, if_false]
          rw [ih f (contains_false_tail h)]

/-- `replaceAllL` is the identity on texts without the pattern. -/
theorem replaceAllL_id {pat : List Char} (rep : List Char) {s : List Char}
    (h : containsSub pat s = false) : replaceAllL pat rep s = s := by
  have hne : pat ≠ [] := by
    intro hp
    subst hp
    cases s with
    | nil => simp [containsSub, indexOfL] at h
    | cons c rest => simp [containsSub, indexOfL, List.isPrefixOf] at h
  rw [replaceAllL, if_neg hne]
  exact replaceAllAux_id pat rep s s.length h

/-- The `"For more"` stage is the identity on texts without `"For more"`. -/
theorem forMoreStage_id {s : List Char}
    (h : containsSub "For more".data s = false) :
    PgTerminal.forMoreStage s = s := by
  rw [PgTerminal.forMoreStage, indexOf_none_of_not_contains h]

/-- The `"Finished release"` stage is the identity on texts without the
marker. -/
theorem finishedStage_id {s : List Char}
    (h : containsSub "Finished release".data s = false) :
    PgTerminal.finishedStage s = s := by
  rw [PgTerminal.finishedStage, indexOf_none_of_not_contains h]

/-- `replaceFirstL` at a located first occurrence splices the replacement
between the text before and after that occurrence. -/
theorem replaceFirstL_eq_of_indexOf {pat rep s : List Char} {n : Nat}
    (h : indexOfL pat s = some n) :
    replaceFirstL pat rep s = s.take n ++ rep ++ s.drop (n + pat.length) := by
  induction s generalizing n with
  | nil =>
      rw [indexOfL] at h
      split at h
      · next hp =>
          injection h with hn
          subst hn
          simp [replaceFirstL, hp]
      · simp at h
  | cons c rest ih =>
      rw [indexOfL] at h
      by_cases hp : pat.isPrefixOf (c :: rest) = true
      · rw [if_pos hp] at h
        injection h with hn
        subst hn
        rw [replaceFirstL, if_pos hp]
        simp
      · rw [if_neg (by simpa using hp)] at h
        cases hio : indexOfL pat rest with
        | none => rw [hio] at h; simp at h
        | some m =>
            rw [hio] at h
            simp only [Option.map_some'] at h
            injection h with hn
            subst hn
            rw [replaceFirstL, if_neg (by simpa using hp)]
            rw [ih hio]
            simp [List.take_succ_cons, List.drop_succ_cons, Nat.succ_add]

/-- C8 (counterexample): the claim as stated is false.  The input below
contains the `"Compiling solpg v0.1.0\n"` line, no home-directory fragment,
no uuid occurrence, no `"For more"`, and no `"Finished release"` — yet
`editStderr` does not merely remove the Compiling line: removing that line
joins `"...relea"` and `"se..."` into a fresh `"Finished release"` marker,
and the banner rewrite (which runs after the removal) fires on it. -/
theorem c8_counterexample :
    (containsSub ("Compiling solpg v0.1.0\n".data)
      ("xFinished releaCompiling solpg v0.1.0\nse in 1s\n" : String).data = true) ∧
    (containsSub "(/home".data
      ("xFinished releaCompiling solpg v0.1.0\nse in 1s\n" : String).data = false) ∧
    (containsSub ("u-u" : String).data
      ("xFinished releaCompiling solpg v0.1.0\nse in 1s\n" : String).data = false) ∧
    (containsSub "For more".data
      ("xFinished releaCompiling solpg v0.1.0\nse in 1s\n" : String).data = false) ∧
    (containsSub "Finished release".data
      ("xFinished releaCompiling solpg v0.1.0\nse in 1s\n" : String).data = false) ∧
    PgTerminal.editStderr "xFinished releaCompiling solpg v0.1.0\nse in 1s\n" "u-u" ≠
      "xFinished release in 1s\n" := by
  decide

/-- C8 (amended): for every input splitting as
`pre ++ "Compiling solpg v0.1.0\n" ++ post` at the first occurrence of that
line, containing no home-directory fragment, no occurrence of the given
uuid and no `"For more"` substring, and such that the joined remainder
`pre ++ post` (the string left after the removal, on which the source's
marker check actually runs) has no `"Finished release"` marker,
`editStderr` returns the input with exactly that Compiling line removed and
all other lines unchanged; the embedding is a total function, so no
exception is possible. -/
theorem c8_amended (pre post uuid : String)
    (h1 : containsSub "(/home".data
      (pre ++ "Compiling solpg v0.1.0\n" ++ post).data = false)
    (h2 : containsSub uuid.data
      (pre ++ "Compiling solpg v0.1.0\n" ++ post).data = false)
    (h3 : containsSub "For more".data
      (pre ++ "Compiling solpg v0.1.0\n" ++ post).data = false)
    (h4 : indexOfL ("Compiling solpg v0.1.0\n".data)
      (pre ++ "Compiling solpg v0.1.0\n" ++ post).data = some pre.data.length)
    (h5 : containsSub "Finished release".data (pre ++ post).data = false) :
    PgTerminal.editStderr (pre ++ "Compiling solpg v0.1.0\n" ++ post) uuid =
      pre ++ post := by
  rw [PgTerminal.editStderr]
  rw [removeHomePaths_id h1, replaceAllL_id [] h2, forMoreStage_id h3]
  rw [replaceFirstL_eq_of_indexOf h4]
  have hdata : (pre ++ "Compiling solpg v0.1.0\n" ++ post).data =
      pre.data ++ (("Compiling solpg v0.1.0\n".data) ++ post.data) := by
    simp [String.data_append]
  rw [hdata]
  rw [List.take_left]
  simp only [List.append_nil]
  have hdrop : (pre.data ++ (("Compiling solpg v0.1.0\n".data) ++ post.data)).drop
      (pre.data.length + ("Compiling solpg v0.1.0\n".data).length) = post.data := by
    rw [← List.drop_drop]
    rw [List.drop_left, List.drop_left]
  rw [hdrop]
  have h5' : containsSub "Finished release".data (pre.data ++ post.data) = false := by
    simpa [String.data_append] using h5
  rw [finishedStage_id h5']
  exact String.ext (by simp [String.data_append])

/-- C8 (witness): removing the Compiling banner from a two-line stderr
keeps the warning line intact. -/
theorem c8_witness :
    (containsSub "(/home".data
      (("   " : String) ++ "Compiling solpg v0.1.0\n" ++ "warning: unused variable\n").data = false) ∧
    (containsSub ("1234-uuid" : String).data
      (("   " : String) ++ "Compiling solpg v0.1.0\n" ++ "warning: unused variable\n").data = false) ∧
    (containsSub "For more".data
      (("   " : String) ++ "Compiling solpg v0.1.0\n" ++ "warning: unused variable\n").data = false) ∧
    (indexOfL ("Compiling solpg v0.1.0\n".data)
      (("   " : String) ++ "Compiling solpg v0.1.0\n" ++ "warning: unused variable\n").data =
        some ("   " : String).data.length) ∧
    (containsSub "Finished release".data
      (("   " : String) ++ "warning: unused variable\n").data = false) ∧
    PgTerminal.editStderr (("   " : String) ++ "Compiling solpg v0.1.0\n" ++ "warning: unused variable\n")
      "1234-uuid" = ("   " : String) ++ "warning: unused variable\n" :=
  ⟨by decide, by decide, by decide, by decide, by decide,
   c8_amended "   " "warning: unused variable\n" "1234-uuid"
     (by decide) (by decide) (by decide) (by decide) (by decide)⟩

namespace PgTerm

/-- The double-newline normalization at the top of `PgTerm.print`:
`message.replace(/\n\n/g, "\n \n")`, a global replacement of every
non-overlapping occurrence, scanning left to right. -/
def normalizeDoubleNewlines (message : String) : String :=
  String.mk (replaceAllL ['\n', '\n'] ['\n', ' ', '\n'] message.data)

/-- `PgTerm.print(message, sync?)`: first rewrite the message, then return
early when the terminal is not open (`none`: nothing written); while
prompting, the text handed to the tty inside `printAndRestartPrompt` is the
rewritten message plus a newline; otherwise the rewritten message itself. -/
def print (isOpen prompting : Bool) (message : String) : Option String :=
  let m := normalizeDoubleNewlines message
  if !isOpen then none
  else if prompting then some (m ++ "\n")
  else some m

end PgTerm

/-- C9 (confirmed): every text `PgTerm.print` hands to the display derives
from the message rewritten by replacing every non-overlapping occurrence of
`"\n\n"` with `"\n \n"` — never the caller's message verbatim when a double
newline occurs; the rewriting happens before any write, in every
open/prompting state. -/
theorem c9_print_rewrites (isOpen prompting : Bool) (message : String) :
    (∀ t, PgTerm.print isOpen prompting message = some t →
      t = PgTerm.normalizeDoubleNewlines message ∨
      t = PgTerm.normalizeDoubleNewlines message ++ "\n") ∧
    PgTerm.normalizeDoubleNewlines "a\n\nb" = "a\n \nb" ∧
    PgTerm.normalizeDoubleNewlines "a\n\n\n\nb" = "a\n \n\n \nb" ∧
    PgTerm.normalizeDoubleNewlines "a\n\nb" ≠ "a\n\nb" := by
  refine ⟨?_, by decide, by decide, by decide⟩
  intro t ht
  rw [PgTerm.print] at ht
  cases isOpen with
  | false => simp at ht
  | true =>
      cases prompting with
      | false => simp at ht; simp [ht]
      | true => simp at ht; simp [ht]

/-- C9 (witness): a message with a double newline is handed to the display
in rewritten form. -/
theorem c9_witness :
    PgTerm.print true false "a\n\nb" = some "a\n \nb" ∧
    ("a\n \nb" = PgTerm.normalizeDoubleNewlines "a\n\nb" ∨
     "a\n \nb" = PgTerm.normalizeDoubleNewlines "a\n\nb" ++ "\n") :=
  ⟨by decide, (c9_print_rewrites true false "a\n\nb").1 "a\n \nb" (by decide)⟩

/-- The tty-level state visible to `PgTerm.handleTermResize`: the logical
InputLine (text and cursor offset), the cached terminal size, and the
currently rendered input (if any). -/
structure TtyState where
  input : String
  cursorOffset : Nat
  cols : Nat
  rows : Nat
  renderedInput : Option String
deriving DecidableEq, Repr

namespace PgTty

/-- Modelled from the spec: `PgTty.clearInput` (the `./tty` module is not
among the provided sources); per the spec's resize handling it clears only
the rendered input, leaving the logical InputLine text and cursor offset
untouched. -/
def clearInput (st : TtyState) : TtyState := { st with renderedInput := none }

/-- Modelled from the spec: `PgTty.setTermSize(cols, rows)` updates the
cached dimensions and triggers no content mutation by itself. -/
def setTermSize (cols rows : Nat) (st : TtyState) : TtyState :=
  { st with cols := cols, rows := rows }

/-- Modelled from the spec: `PgTty.getInput` returns the InputLine text. -/
def getInput (st : TtyState) : String := st.input

/-- Modelled from the spec: `PgTty.setInput(input, shouldRender)` stores the
InputLine text and, when requested, re-renders it; per the spec's resize
handling the re-render alters neither the text nor the cursor offset. -/
def setInput (input : String) (shouldRender : Bool) (st : TtyState) : TtyState :=
  { st with input := input,
            renderedInput := if shouldRender then some input else st.renderedInput }

end PgTty

namespace PgTerm

/-- `PgTerm.handleTermResize({rows, cols})`: clear the rendered input,
update the cached terminal size, then re-render the current input
(`setInput(getInput(), true)`). -/
def handleTermResize (rows cols : Nat) (st : TtyState) : TtyState :=
  let st1 := PgTty.clearInput st
  let st2 := PgTty.setTermSize cols rows st1
  PgTty.setInput (PgTty.getInput st2) true st2

end PgTerm

/-- C7 (confirmed): a resize notification leaves the logical InputLine text
and cursor offset unchanged; it only updates the cached terminal size and
re-renders the same input text. -/
theorem c7_resize_preserves_input (rows cols : Nat) (st : TtyState) :
    (PgTerm.handleTermResize rows cols st).input = st.input ∧
    (PgTerm.handleTermResize rows cols st).cursorOffset = st.cursorOffset ∧
    (PgTerm.handleTermResize rows cols st).cols = cols ∧
    (PgTerm.handleTermResize rows cols st).rows = rows ∧
    (PgTerm.handleTermResize rows cols st).renderedInput = some st.input := by
  refine ⟨rfl, rfl, rfl, rfl, rfl⟩

/-- The session states of the Line Editor and Session Controller, from the
spec: `Idle` (not accepting input), `Prompting` (accepting keystrokes),
`Dispatching` (a submitted line is with the Command Dispatcher). -/
inductive ShellState where
  | Idle
  | Prompting
  | Dispatching
deriving DecidableEq, Repr

/-- The shell-level state visible to `PgTerm.runCommand` and
`PgTerm.runLastCmd`: the session state, the InputLine text, the command
history (most recent first) and the log of lines handed to the dispatcher. -/
structure ShellTermState where
  shell : ShellState
  input : String
  history : List String
  submitted : List String
deriving DecidableEq, Repr

namespace PgShell

/-- Modelled from the spec: `PgShell.isPrompting` (the `./shell` module is
not among the provided sources) — true exactly in the `Prompting` state. -/
def isPrompting (st : ShellTermState) : Bool :=
  match st.shell with
  | ShellState.Prompting => true
  | _ => false

/-- Modelled from the spec: `PgShell.handleReadComplete` / `submit()` (the
`./shell` module is not among the provided sources): freeze the current
InputLine as the submitted command, append it to History when non-empty,
clear the InputLine, transition to `Dispatching`, and hand the text to the
Command Dispatcher. -/
def handleReadComplete (st : ShellTermState) : ShellTermState :=
  { shell := ShellState.Dispatching,
    input := "",
    history := if st.input = "" then st.history else st.input :: st.history,
    submitted := st.submitted ++ [st.input] }

/-- Modelled from the spec: `history.getPrevious()` as used by `runLastCmd`,
which "recalls the most recent history entry and resubmits it" — the most
recent entry, or the empty string for an empty history. -/
def getPrevious (history : List String) : String := history.headD ""

end PgShell

namespace PgTerm

/-- `PgTerm.runCommand(line)`: only when the shell is prompting, set the
input to the line and trigger the submit path. -/
def runCommand (line : String) (st : ShellTermState) : ShellTermState :=
  if PgShell.isPrompting st then PgShell.handleReadComplete { st with input := line }
  else st

/-- `PgTerm.runLastCmd()`: set the input to the most recent history entry
and trigger the submit path, with no check of the shell state at all. -/
def runLastCmd (st : ShellTermState) : ShellTermState :=
  PgShell.handleReadComplete { st with input := PgShell.getPrevious st.history }

end PgTerm

/-- C10 (confirmed): `runLastCmd` submits the most recent history entry in
every shell state — the submission log grows and the shell moves to
`Dispatching` unconditionally — whereas `runCommand` is a no-op whenever
the shell is not `Prompting` (in particular while `Idle` or
`Dispatching`). -/
theorem c10_runLastCmd_unconditional (st : ShellTermState) (line : String) :
    (PgTerm.runLastCmd st).submitted =
      st.submitted ++ [PgShell.getPrevious st.history] ∧
    (PgTerm.runLastCmd st).shell = ShellState.Dispatching ∧
    (PgShell.isPrompting st = false → PgTerm.runCommand line st = st) := by
  refine ⟨rfl, rfl, ?_⟩
  intro h
  rw [PgTerm.runCommand, h]
  simp

/-- C10 (witness): an `Idle` shell still submits the last history entry via
`runLastCmd`, while `runCommand` does nothing there. -/
theorem c10_witness :
    (PgTerm.runLastCmd ⟨ShellState.Idle, "x", ["last"], []⟩).submitted =
      (⟨ShellState.Idle, "x", ["last"], []⟩ : ShellTermState).submitted ++
        [PgShell.getPrevious (⟨ShellState.Idle, "x", ["last"], []⟩ : ShellTermState).history] ∧
    (PgTerm.runLastCmd ⟨ShellState.Idle, "x", ["last"], []⟩).shell = ShellState.Dispatching ∧
    (PgShell.isPrompting ⟨ShellState.Idle, "x", ["last"], []⟩ = false →
      PgTerm.runCommand "cmd" ⟨ShellState.Idle, "x", ["last"], []⟩ =
        ⟨ShellState.Idle, "x", ["last"], []⟩) :=
  c10_runLastCmd_unconditional ⟨ShellState.Idle, "x", ["last"], []⟩ "cmd"
